import Mathlib

/-!
Verification of the rectangle-annotation canvas editor
(`src/components/Canvas.jsx`).

The component keeps an in-memory list of rectangle records together with a
selected-id reference, converts pointer gestures into new rectangles,
normalizes and clamps resize gestures, imports/exports the list as a JSON
array and debounces auto-saves to a remote persistence service.  Numbers are
modelled as rationals (JS numbers on the inputs exercised here are exact),
strings as Lean `String`, and JSON values as an inductive tree.
-/

namespace Canvas

/-- A rectangle record as created by `handleMouseDown`:
`{ id, x, y, width, height, color }`. -/
structure Rect where
  id : String
  x : ℚ
  y : ℚ
  width : ℚ
  height : ℚ
  color : String
deriving DecidableEq, Repr

/-- Hex digits as produced by JS `Number.prototype.toString(16)`:
lowercase, most significant first, no padding; `0` prints as `"0"`.
Modelled with core's `Nat.toDigits 16`, which has the same behaviour on
naturals. -/
def natToHex (n : Nat) : String :=
  ⟨Nat.toDigits 16 n⟩

/-- The color expression of `handleMouseDown`:
`'#' + Math.floor(Math.random()*16777215).toString(16)` where
`n = Math.floor(Math.random()*16777215)` ranges over `0 .. 16777214`. -/
def colorOf (n : Nat) : String :=
  "#" ++ natToHex n

/-- The id expression of `handleMouseDown`: `` `rect-${Date.now()}` `` with
`t = Date.now()` (milliseconds). -/
def rectId (t : Nat) : String :=
  "rect-" ++ toString t

/-- Whether a string is `'#'` followed by exactly six hexadecimal digits. -/
def isSixHexColor (s : String) : Bool :=
  match s.data with
  | '#' :: rest => rest.length = 6 && rest.all fun c =>
      ('0' ≤ c && c ≤ '9') || ('a' ≤ c && c ≤ 'f') || ('A' ≤ c && c ≤ 'F')
  | _ => false

/-- The draw-controller state: the committed rectangle list plus the
transient gesture state (`startPoint`, `currentRect`) and the drawing-mode
flag. -/
structure DrawState where
  isDrawing : Bool
  rectangles : List Rect
  startPoint : Option (ℚ × ℚ)
  currentRect : Option Rect
deriving DecidableEq, Repr

/-- `handleMouseDown`: when drawing mode is on and the event target is the
stage background (the target test is the `targetIsStage` argument), records
the pointer position as `startPoint` and creates a zero-sized provisional
rectangle there with id `rect-<t>` and color `colorOf n`. -/
def handleMouseDown (targetIsStage : Bool) (t n : Nat) (pos : ℚ × ℚ)
    (s : DrawState) : DrawState :=
  if s.isDrawing && targetIsStage then
    { s with
      startPoint := some pos
      currentRect := some
        { id := rectId t, x := pos.1, y := pos.2
          width := 0, height := 0, color := colorOf n } }
  else s

/-- `handleMouseMove`: while a gesture is being tracked, recomputes the
provisional width/height as the raw signed deltas
`currentPointer - startPoint`. -/
def handleMouseMove (pos : ℚ × ℚ) (s : DrawState) : DrawState :=
  match s.startPoint, s.currentRect with
  | some sp, some cur =>
      if s.isDrawing then
        let moved : Rect :=
          { cur with width := pos.1 - sp.1, height := pos.2 - sp.2 }
        { s with currentRect := some moved }
      else s
  | _, _ => s

/-- Normalization applied on pointer-up: negative width/height are resolved
by shifting `x`/`y` and taking absolute values, exactly the `finalRect`
expression of `handleMouseUp`. -/
def normalizeRect (r : Rect) : Rect :=
  { r with
    x := if r.width > 0 then r.x else r.x + r.width
    y := if r.height > 0 then r.y else r.y + r.height
    width := |r.width|
    height := |r.height| }

/-- `handleMouseUp`: appends the normalized provisional rectangle when
`Math.abs(width) > 5 && Math.abs(height) > 5`, and clears `startPoint` and
`currentRect` in every case. -/
def handleMouseUp (s : DrawState) : DrawState :=
  match s.currentRect with
  | some cur =>
      if |cur.width| > 5 ∧ |cur.height| > 5 then
        { s with
          rectangles := s.rectangles ++ [normalizeRect cur]
          startPoint := none
          currentRect := none }
      else { s with startPoint := none, currentRect := none }
  | none => { s with startPoint := none, currentRect := none }

/-- A complete drawing gesture: pointer-down at `startPos`, a final
pointer-move to `endPos`, then pointer-up. -/
def drawGesture (t n : Nat) (startPos endPos : ℚ × ℚ) (s : DrawState) :
    DrawState :=
  handleMouseUp (handleMouseMove endPos (handleMouseDown true t n startPos s))

/-- `handleDragEnd`: the rectangle matching `id` takes its new `x`,`y` from
the shape's final rendered position; everything else is unchanged. -/
def handleDragEnd (rectangles : List Rect) (i : String) (nx ny : ℚ) :
    List Rect :=
  rectangles.map fun r =>
    if r.id = i then { r with x := nx, y := ny } else r

/-- `handleTransformEnd`: the node reports `scaleX`,`scaleY`; the handler
resets the node scale to 1 (first component of the result) and persists the
rectangle matching `id` with the node's `x`,`y` and
`width = max 5 (oldWidth*scaleX)`, `height = max 5 (oldHeight*scaleY)`. -/
def handleTransformEnd (rectangles : List Rect) (i : String)
    (nx ny scaleX scaleY : ℚ) : (ℚ × ℚ) × List Rect :=
  ((1, 1),
    rectangles.map fun r =>
      if r.id = i then
        { r with
          x := nx, y := ny
          width := max 5 (r.width * scaleX)
          height := max 5 (r.height * scaleY) }
      else r)

/-- A bounding box as passed to the Transformer's `boundBoxFunc`. -/
structure Box where
  x : ℚ
  y : ℚ
  width : ℚ
  height : ℚ
deriving DecidableEq, Repr

/-- The Transformer's `boundBoxFunc`: a requested box with
`width < 5 || height < 5` is refused, keeping the previous box. -/
def boundBoxFunc (oldBox newBox : Box) : Box :=
  if newBox.width < 5 ∨ newBox.height < 5 then oldBox else newBox

/-- The store as seen by selection-aware operations: the rectangle list and
the `selectedId` reference. -/
structure Store where
  rectangles : List Rect
  selectedId : Option String
deriving DecidableEq, Repr

/-- `deleteSelected`: when a rectangle is selected, filters it out of the
list (`rect.id !== selectedId`) and clears the selection. -/
def deleteSelected (s : Store) : Store :=
  match s.selectedId with
  | some i =>
      { rectangles := s.rectangles.filter fun r => r.id ≠ i
        selectedId := none }
  | none => s

/-- `clearAll`: empties the list and clears the selection. -/
def clearAll (_s : Store) : Store :=
  { rectangles := [], selectedId := none }

/-- Clicking or tapping a rendered rectangle: `setSelectedId(rect.id)`. -/
def selectRect (r : Rect) (s : Store) : Store :=
  { s with selectedId := some r.id }

/-- A JSON value, the result of `JSON.parse` on the uploaded document. -/
inductive JVal where
  | null : JVal
  | bool : Bool → JVal
  | num : ℚ → JVal
  | str : String → JVal
  | arr : List JVal → JVal
  | obj : List (String × JVal) → JVal

/-- `Array.isArray` on a parsed JSON value. -/
def JVal.isArr : JVal → Bool
  | .arr _ => true
  | _ => false

/-- The state touched by `loadFromFile`: after an import the list holds
whatever values the parsed array contained, so it is a list of JSON values
here; `error` is the transient user-visible message. -/
structure ImportState where
  rectangles : List JVal
  selectedId : Option String
  error : String

/-- `loadFromFile`'s reader callback, given the outcome of `JSON.parse`
(`Except.error` = the parse threw): a parse failure sets the error message;
a parsed array replaces the list wholesale and clears the selection; any
other parsed value does nothing. -/
def loadFromFile (parsed : Except Unit JVal) (s : ImportState) :
    ImportState :=
  match parsed with
  | .error _ => { s with error := "Invalid file format" }
  | .ok v =>
      match v with
      | .arr xs => { s with rectangles := xs, selectedId := none }
      | _ => s

/-- The JSON object `JSON.stringify` produces for one rectangle record,
fields in creation order. -/
def rectToJVal (r : Rect) : JVal :=
  .obj [("id", .str r.id), ("x", .num r.x), ("y", .num r.y),
        ("width", .num r.width), ("height", .num r.height),
        ("color", .str r.color)]

/-- `exportToFile`: the JSON document written to the downloaded file is the
array of the current rectangle records. -/
def exportToFile (rectangles : List Rect) : JVal :=
  .arr (rectangles.map rectToJVal)

/-- Reading a rectangle record back from its JSON form; inverse of
`rectToJVal`, used to state that the imported sequence is structurally
equal to the pre-export one. -/
def decodeRect : JVal → Option Rect
  | .obj [("id", .str i), ("x", .num x), ("y", .num y),
          ("width", .num w), ("height", .num h),
          ("color", .str c)] =>
      some { id := i, x := x, y := y, width := w, height := h, color := c }
  | _ => none

/-- Reading a whole imported array back as rectangle records; `none` as soon
as one element is not Rectangle-shaped. -/
def decodeRectList : List JVal → Option (List Rect)
  | [] => some []
  | v :: vs =>
      match decodeRect v, decodeRectList vs with
      | some r, some rs => some (r :: rs)
      | _, _ => none

/-- The HTTP request a save issues: `PUT /api/annotations/:id` when an id is
already held, `POST /api/annotations` otherwise. -/
inductive SaveReq where
  | put : String → SaveReq
  | post : SaveReq
deriving DecidableEq, Repr

/-- Result of one `saveAnnotations` call: which request was issued, the
`annotationId` afterwards, and the `error` message afterwards. -/
structure SaveResult where
  req : SaveReq
  annotationId : Option String
  error : String
deriving DecidableEq, Repr

/-- `saveAnnotations`, with the network outcome as input: `ok = true` means
the request succeeded and, for a create, `returnedId` is the `_id` the
service answered with.  With an id the call updates against that id; without
one it creates and adopts the returned id.  Success clears the error
message; failure sets it and leaves `annotationId` as it was. -/
def saveAnnotations (annotationId : Option String) (ok : Bool)
    (returnedId : String) : SaveResult :=
  match annotationId with
  | some i =>
      if ok then { req := .put i, annotationId := some i, error := "" }
      else { req := .put i, annotationId := some i
             error := "Failed to save annotations" }
  | none =>
      if ok then { req := .post, annotationId := some returnedId
                   error := "" }
      else { req := .post, annotationId := none
             error := "Failed to save annotations" }

/-- The `disabled` condition of the Save-to-Database button:
`rectangles.length === 0`. -/
def saveButtonDisabled (rectangles : List Rect) : Bool :=
  rectangles.length == 0

/-- State of the auto-save effect: the current list, the checkbox, and the
pending debounce timer.  A pending timer carries its deadline and the
rectangle list captured by the `saveAnnotations` closure when it was armed;
`Option` makes at most one pending timer a structural fact. -/
structure AutoState where
  rectangles : List Rect
  autoSave : Bool
  pending : Option (ℚ × List Rect)
deriving DecidableEq, Repr

/-- Events the auto-save effect reacts to: a mutation of the rectangle list
(every `setRectangles` call re-runs the effect) or toggling the checkbox. -/
inductive AEv where
  | mutate : List Rect → AEv
  | setAuto : Bool → AEv
deriving DecidableEq, Repr

/-- The effect body after its cleanup ran at time `t`: the previous timer is
already cancelled; a new 2-second timer is armed iff auto-save is on and the
list is non-empty (`autoSave && rectangles.length > 0`). -/
def effectRearm (t : ℚ) (s : AutoState) : AutoState :=
  { s with
    pending :=
      if s.autoSave ∧ s.rectangles ≠ [] then some (t + 2, s.rectangles)
      else none }

/-- Advance time to `t`: a pending timer whose deadline has passed fires its
save (reported as deadline paired with the captured list) and is consumed. -/
def fireUpTo (t : ℚ) (s : AutoState) : AutoState × List (ℚ × List Rect) :=
  match s.pending with
  | some (d, l) =>
      if d ≤ t then ({ s with pending := none }, [(d, l)]) else (s, [])
  | none => (s, [])

/-- One event at time `t`: time first advances to `t` (firing a due timer),
then the event updates the state and the effect re-runs, cancelling the old
timer and possibly arming a fresh one. -/
def stepEv (t : ℚ) (e : AEv) (s : AutoState) :
    AutoState × List (ℚ × List Rect) :=
  let fired := fireUpTo t s
  match e with
  | .mutate l => (effectRearm t { fired.1 with rectangles := l }, fired.2)
  | .setAuto b => (effectRearm t { fired.1 with autoSave := b }, fired.2)

/-- Run a time-ordered trace of events, collecting every save that fired. -/
def runTrace : List (ℚ × AEv) → AutoState → AutoState × List (ℚ × List Rect)
  | [], s => (s, [])
  | (t, e) :: rest, s =>
      let step := stepEv t e s
      let tail := runTrace rest step.1
      (tail.1, step.2 ++ tail.2)

/-- Let the system sit quietly until time `t`: the saves that still fire. -/
def quietUntil (t : ℚ) (s : AutoState) : List (ℚ × List Rect) :=
  (fireUpTo t s).2

/-- Every operation of the component that touches the rectangle list or the
selection, as it acts on the store. -/
inductive StoreOp where
  | draw : Option Rect → StoreOp
  | dragEnd : String → ℚ → ℚ → StoreOp
  | transformEnd : String → ℚ → ℚ → ℚ → ℚ → StoreOp
  | deleteSel : StoreOp
  | clear : StoreOp
  | select : Rect → StoreOp
  | importList : List JVal → StoreOp

/-- The effect of each operation on `(rectangles, selectedId)`, exactly as
the corresponding handler performs it.  `draw` is a pointer-up with the
given provisional rectangle; `importList` is a successful array import,
which replaces the list and clears the selection (junk elements are dropped
here only to keep the store typed; they carry no id either way). -/
def applyOp : StoreOp → Store → Store
  | .draw cur, s =>
      { s with rectangles :=
          (handleMouseUp
            { isDrawing := true, rectangles := s.rectangles,
              startPoint := none, currentRect := cur }).rectangles }
  | .dragEnd i nx ny, s =>
      { s with rectangles := handleDragEnd s.rectangles i nx ny }
  | .transformEnd i nx ny sx sy, s =>
      { s with rectangles := (handleTransformEnd s.rectangles i nx ny sx sy).2 }
  | .deleteSel, s => deleteSelected s
  | .clear, s => clearAll s
  | .select r, s => selectRect r s
  | .importList xs, _s =>
      { rectangles := xs.filterMap decodeRect, selectedId := none }

/-- The weak-reference invariant: a selected id always names a rectangle
present in the sequence. -/
def SelectionInv (s : Store) : Prop :=
  ∀ i, s.selectedId = some i → ∃ r ∈ s.rectangles, r.id = i

/-- Invariant of the auto-save effect: a pending timer always carries the
non-empty list captured when it was armed. -/
def PendInv (s : AutoState) : Prop :=
  ∀ d l, s.pending = some (d, l) → l ≠ []

/-- Helper: appending one element never returns the same list. -/
theorem append_singleton_ne (l : List Rect) (r : Rect) :
    l ++ [r] ≠ l := by
  intro h
  have hlen := congrArg List.length h
  simp at hlen

/-- C1: on pointer-up with a provisional rectangle present, the rectangle is
appended iff both raw signed deltas exceed 5 in absolute value, the sequence
is unchanged otherwise, and the provisional rectangle (and start point) is
cleared in either case; moreover, for every gesture from any start point in
drawing mode, a 3-by-3 drag commits nothing and a 6-by-6 drag commits
exactly one rectangle. -/
theorem C1_draw_commit_threshold (s : DrawState) (r : Rect)
    (h : s.currentRect = some r) :
    (handleMouseUp s).currentRect = none ∧
    (handleMouseUp s).startPoint = none ∧
    (handleMouseUp s).rectangles =
      (if |r.width| > 5 ∧ |r.height| > 5 then
        s.rectangles ++ [normalizeRect r]
      else s.rectangles) ∧
    ((handleMouseUp s).rectangles ≠ s.rectangles ↔
      |r.width| > 5 ∧ |r.height| > 5) ∧
    (∀ (t n : Nat) (sp : ℚ × ℚ) (s0 : DrawState), s0.isDrawing = true →
      (drawGesture t n sp (sp.1 + 3, sp.2 + 3) s0).rectangles =
        s0.rectangles ∧
      (drawGesture t n sp (sp.1 + 6, sp.2 + 6) s0).rectangles.length =
        s0.rectangles.length + 1) := by
  refine ⟨?_, ?_, ?_, ?_, ?_⟩
  · simp only [handleMouseUp, h]
    split <;> rfl
  · simp only [handleMouseUp, h]
    split <;> rfl
  · simp only [handleMouseUp, h]
    split <;> rfl
  · simp only [handleMouseUp, h]
    split
    · rename_i hc
      exact iff_of_true (append_singleton_ne s.rectangles (normalizeRect r)) hc
    · rename_i hc
      exact iff_of_false (by simp) hc
  · intro t n sp s0 h0
    constructor
    · simp [drawGesture, handleMouseDown, handleMouseMove, handleMouseUp,
        h0, add_sub_cancel_left]
      norm_num
    · simp [drawGesture, handleMouseDown, handleMouseMove, handleMouseUp,
        h0, add_sub_cancel_left]
      norm_num

/-- Helper: the source's directional shift `if w > 0 then x else x + w`
computes the top-left coordinate, i.e. the minimum of the two corners. -/
theorem ite_pos_eq_min (x w : ℚ) :
    (if w > 0 then x else x + w) = min x (x + w) := by
  split
  · exact (min_eq_left (by linarith)).symm
  · exact (min_eq_right (by linarith)).symm

/-- C2: every committed rectangle is the normalized provisional one: `x`,`y`
move to the top-left corner (the pointwise minimum of the two gesture
corners) and width/height become absolute values; in particular a gesture
from (100,100) to (40,60) commits exactly
`x = 40, y = 60, width = 60, height = 40`. -/
theorem C2_normalization (s : DrawState) (r : Rect)
    (h : s.currentRect = some r)
    (hw : |r.width| > 5) (hh : |r.height| > 5) :
    (handleMouseUp s).rectangles =
      s.rectangles ++
        [{ r with
            x := min r.x (r.x + r.width)
            y := min r.y (r.y + r.height)
            width := |r.width|
            height := |r.height| }] ∧
    (∀ (t n : Nat) (s0 : DrawState), s0.isDrawing = true →
      (drawGesture t n (100, 100) (40, 60) s0).rectangles =
        s0.rectangles ++
          [{ id := rectId t, x := 40, y := 60, width := 60, height := 40,
             color := colorOf n }]) := by
  constructor
  · simp only [handleMouseUp, h, if_pos (And.intro hw hh)]
    simp [normalizeRect, ite_pos_eq_min]
  · intro t n s0 h0
    simp [drawGesture, handleMouseDown, handleMouseMove, handleMouseUp,
      normalizeRect, h0]
    norm_num

/-- C3: resize end resets the rendered scale to (1,1); pointwise, the
rectangle matching the transformed id gets the node's `x`,`y` and sizes
`max 5 (old*scale)` while every other position is unchanged; every
rectangle the operation rewrites has width and height at least 5; and the
Transformer's bound-box callback refuses any box with width or height
below 5, returning the previous box. -/
theorem C3_resize_clamp (rects : List Rect) (i : String)
    (nx ny sx sy : ℚ) (oldBox newBox : Box)
    (hbad : newBox.width < 5 ∨ newBox.height < 5) :
    (handleTransformEnd rects i nx ny sx sy).1 = (1, 1) ∧
    (handleTransformEnd rects i nx ny sx sy).2.length = rects.length ∧
    (∀ k : Nat,
      (handleTransformEnd rects i nx ny sx sy).2[k]? =
        rects[k]?.map fun r =>
          if r.id = i then
            { r with
              x := nx, y := ny
              width := max 5 (r.width * sx)
              height := max 5 (r.height * sy) }
          else r) ∧
    (∀ r ∈ (handleTransformEnd rects i nx ny sx sy).2,
      (5 ≤ r.width ∧ 5 ≤ r.height) ∨ r ∈ rects) ∧
    boundBoxFunc oldBox newBox = oldBox := by
  refine ⟨rfl, by simp [handleTransformEnd], ?_, ?_, ?_⟩
  · intro k
    simp [handleTransformEnd, List.getElem?_map]
  · intro r hr
    simp only [handleTransformEnd, List.mem_map] at hr
    obtain ⟨r0, hr0, rfl⟩ := hr
    by_cases hid : r0.id = i
    · left
      simp only [hid, if_pos]
      exact ⟨le_max_left _ _, le_max_left _ _⟩
    · right
      simp only [hid, if_neg, ite_false]
      exact hr0
  · exact if_pos hbad

/-- C4 counterexample: a document that parses to a non-array (the empty
object) leaves the state unchanged but reports no error at all, and a
document that parses to an array of non-Rectangle values (the array `[0]`)
replaces the existing sequence with those junk values instead of being
rejected. -/
theorem C4_counterexample :
    (loadFromFile (.ok (.obj []))
        { rectangles := [], selectedId := none, error := "" }).error = "" ∧
    (loadFromFile (.ok (.arr [.num 0]))
        { rectangles := [.str "x"], selectedId := none,
          error := "" }).rectangles = [.num 0] ∧
    decodeRect (.num 0) = none :=
  ⟨rfl, rfl, rfl⟩

/-- C4 amended: a parse failure sets the error message and leaves the
sequence untouched; a document that parses to a non-array value is silently
ignored (state unchanged, no error reported); a document that parses to an
array — with no validation of its elements — replaces the sequence
wholesale and clears the selection. -/
theorem C4_import_validation (s : ImportState) (v : JVal) (xs : List JVal)
    (hv : v.isArr = false) :
    loadFromFile (.error ()) s = { s with error := "Invalid file format" } ∧
    loadFromFile (.ok v) s = s ∧
    loadFromFile (.ok (.arr xs)) s =
      { s with rectangles := xs, selectedId := none } := by
  refine ⟨rfl, ?_, rfl⟩
  cases v
  case arr ys => simp [JVal.isArr] at hv
  all_goals rfl

/-- C5: exporting the current rectangle list and importing the resulting
document puts exactly the exported records back in the store (and clears
the selection); decoding them recovers a list structurally equal to the
pre-export sequence. -/
theorem C5_round_trip (rects : List Rect) (s : ImportState) :
    (loadFromFile (.ok (exportToFile rects)) s).rectangles =
      rects.map rectToJVal ∧
    (loadFromFile (.ok (exportToFile rects)) s).selectedId = none ∧
    (loadFromFile (.ok (exportToFile rects)) s).error = s.error ∧
    decodeRectList
        (loadFromFile (.ok (exportToFile rects)) s).rectangles =
      some rects := by
  refine ⟨rfl, rfl, rfl, ?_⟩
  show decodeRectList (rects.map rectToJVal) = some rects
  induction rects with
  | nil => rfl
  | cons r rs ih => simp [decodeRectList, decodeRect, rectToJVal, ih]

/-- C6: the auto-save effect is a trailing debounce.  Disabling auto-save
cancels the pending timer; a list mutation strictly inside the window fires
nothing and re-arms the single timer two seconds after the mutation; once
the quiet period reaches the deadline exactly the one pending save fires;
and in the concrete scenario — enable, add a rectangle at time 0, add a
second at time 1.9, stay quiet — exactly one save fires, at time 3.9, two
seconds after the second edit. -/
theorem C6_autosave_debounce (s : AutoState) (t d : ℚ)
    (l l0 : List Rect)
    (hauto : s.autoSave = true) (hl : l ≠ [])
    (hpend : s.pending = some (d, l0)) (hlt : t < d) :
    (stepEv t (.setAuto false) s).1.pending = none ∧
    (stepEv t (.mutate l) s).1.pending = some (t + 2, l) ∧
    (stepEv t (.mutate l) s).2 = [] ∧
    (∀ tq, d ≤ tq → quietUntil tq s = [(d, l0)]) ∧
    (∀ r1 r2 : Rect,
      (runTrace [(0, .setAuto true), (0, .mutate [r1]),
                 ((19 : ℚ) / 10, .mutate [r1, r2])]
          { rectangles := [], autoSave := false, pending := none }).2 ++
        quietUntil ((39 : ℚ) / 10)
          (runTrace [(0, .setAuto true), (0, .mutate [r1]),
                     ((19 : ℚ) / 10, .mutate [r1, r2])]
              { rectangles := [], autoSave := false, pending := none }).1 =
      [((39 : ℚ) / 10, [r1, r2])]) := by
  have hnotle : ¬ d ≤ t := not_le.mpr hlt
  refine ⟨?_, ?_, ?_, ?_, ?_⟩
  · simp [stepEv, effectRearm, fireUpTo, hpend, hnotle]
  · simp [stepEv, effectRearm, fireUpTo, hpend, hnotle, hauto, hl]
  · simp [stepEv, fireUpTo, hpend, hnotle]
  · intro tq htq
    simp [quietUntil, fireUpTo, hpend, htq]
  · intro r1 r2
    simp only [runTrace, stepEv, effectRearm, fireUpTo, quietUntil]
    norm_num
    simp

/-- C7: a save with an id held issues a PUT against that id and keeps the
id; a save without one issues a POST and, on success, adopts the returned
id, which the next save then PUTs against; a failed save sets the
user-visible error message and leaves the id as it was; a successful save
clears the error message. -/
theorem C7_save_semantics (i rid rid2 : String) (ok next : Bool) :
    (saveAnnotations (some i) ok rid).req = .put i ∧
    (saveAnnotations (some i) ok rid).annotationId = some i ∧
    (saveAnnotations none ok rid).req = .post ∧
    (saveAnnotations none true rid).annotationId = some rid ∧
    (saveAnnotations
        (saveAnnotations none true rid).annotationId next rid2).req =
      .put rid ∧
    (saveAnnotations (some i) false rid).error =
      "Failed to save annotations" ∧
    (saveAnnotations none false rid).error = "Failed to save annotations" ∧
    (saveAnnotations none false rid).annotationId = none ∧
    (saveAnnotations (some i) true rid).error = "" ∧
    (saveAnnotations none true rid).error = "" := by
  cases ok <;> cases next <;> simp [saveAnnotations]

/-- Helper: pointer-up never loses a rectangle already in the list. -/
theorem handleMouseUp_mem (ds : DrawState) (r : Rect)
    (hr : r ∈ ds.rectangles) : r ∈ (handleMouseUp ds).rectangles := by
  unfold handleMouseUp
  cases ds.currentRect
  · exact hr
  · dsimp only
    split
    · exact List.mem_append_left _ hr
    · exact hr

/-- Helper: a map that preserves ids keeps every id present in the list. -/
theorem mem_map_id_preserved {f : Rect → Rect}
    (hf : ∀ r, (f r).id = r.id) (l : List Rect) (i : String)
    (h : ∃ r ∈ l, r.id = i) : ∃ r ∈ l.map f, r.id = i := by
  obtain ⟨r, hr, hid⟩ := h
  exact ⟨f r, List.mem_map_of_mem f hr, by rw [hf, hid]⟩

/-- C8: the selection is a weak reference kept consistent by every store
operation: deleting the selected rectangle clears the selection and leaves
no rectangle with that id in the sequence, clearing empties both, and every
operation (with clicks only ever targeting rendered rectangles) preserves
the invariant that a selected id names a rectangle in the sequence. -/
theorem C8_selection_weak_ref (s : Store) (i : String) (op : StoreOp)
    (hinv : SelectionInv s)
    (hop : ∀ r, op = .select r → r ∈ s.rectangles) :
    (s.selectedId = some i →
      (deleteSelected s).selectedId = none ∧
      ∀ r ∈ (deleteSelected s).rectangles, r.id ≠ i) ∧
    (clearAll s).rectangles = [] ∧
    (clearAll s).selectedId = none ∧
    SelectionInv (applyOp op s) := by
  refine ⟨?_, rfl, rfl, ?_⟩
  · intro hsel
    constructor
    · simp [deleteSelected, hsel]
    · intro r hr
      simp only [deleteSelected, hsel] at hr
      have := List.of_mem_filter hr
      simpa using this
  · cases op with
    | draw cur =>
        intro j hj
        obtain ⟨r, hr, hid⟩ := hinv j hj
        exact ⟨r, handleMouseUp_mem _ r hr, hid⟩
    | dragEnd i2 nx ny =>
        intro j hj
        exact mem_map_id_preserved (by intro r; split <;> rfl) _ j (hinv j hj)
    | transformEnd i2 nx ny sx sy =>
        intro j hj
        exact mem_map_id_preserved (by intro r; split <;> rfl) _ j (hinv j hj)
    | deleteSel =>
        intro j hj
        cases hsel : s.selectedId with
        | some k => simp [applyOp, deleteSelected, hsel] at hj
        | none =>
            have : applyOp .deleteSel s = s := by
              simp [applyOp, deleteSelected, hsel]
            rw [this] at hj ⊢
            exact hinv j hj
    | clear => intro j hj; simp [applyOp, clearAll] at hj
    | select r =>
        intro j hj
        simp only [applyOp, selectRect, Option.some_inj] at hj
        exact ⟨r, hop r rfl, hj ▸ rfl⟩
    | importList xs => intro j hj; simp [applyOp] at hj

/-- C9, evaluated at the failing inputs: the color expression
`'#' + n.toString(16)` does not pad, so the random draw `n = 10` yields the
two-character string `"#a"` rather than six hex digits (a draw below
`0x100000` — probability 1/16 — always does this), and two pointer-downs in
the same millisecond (`Date.now() = 5` twice) commit two distinct
rectangles carrying the same id `"rect-5"`, so ids are not unique. -/
theorem C9_color_and_id_failures :
    colorOf 10 = "#a" ∧
    isSixHexColor (colorOf 10) = false ∧
    isSixHexColor "#ffffff" = true ∧
    (drawGesture 5 0 (0, 0) (10, 10)
        (drawGesture 5 1 (50, 50) (80, 90)
          { isDrawing := true, rectangles := [], startPoint := none,
            currentRect := none })).rectangles.map Rect.id =
      ["rect-5", "rect-5"] := by
  refine ⟨by decide, by decide, by decide, ?_⟩
  simp [drawGesture, handleMouseDown, handleMouseMove, handleMouseUp,
    normalizeRect, rectId]
  norm_num
  decide

/-- Helper: the re-armed timer of the effect always captures a non-empty
list. -/
theorem pendInv_effectRearm (t : ℚ) (s : AutoState) :
    PendInv (effectRearm t s) := by
  intro d l h
  unfold effectRearm at h
  split at h
  · rename_i hc
    simp only [Option.some_inj, Prod.mk.injEq] at h
    exact h.2 ▸ hc.2
  · simp at h

/-- Helper: under the pending-timer invariant, every save that firing the
timer emits carries a non-empty list. -/
theorem fireUpTo_saves (t : ℚ) (s : AutoState) (hs : PendInv s) :
    ∀ p ∈ (fireUpTo t s).2, p.2 ≠ [] := by
  intro p hp
  unfold fireUpTo at hp
  cases hpend : s.pending with
  | none => simp [hpend] at hp
  | some dl =>
      obtain ⟨d, l⟩ := dl
      simp only [hpend] at hp
      split at hp
      · simp only [List.mem_singleton] at hp
        rw [hp]
        exact hs d l hpend
      · simp at hp

/-- Helper: one event step keeps the pending-timer invariant. -/
theorem stepEv_pendInv (t : ℚ) (e : AEv) (s : AutoState) :
    PendInv (stepEv t e s).1 := by
  cases e <;> exact pendInv_effectRearm _ _

/-- Helper: the saves one event step emits all carry non-empty lists. -/
theorem stepEv_saves (t : ℚ) (e : AEv) (s : AutoState) (hs : PendInv s) :
    ∀ p ∈ (stepEv t e s).2, p.2 ≠ [] := by
  cases e <;> exact fireUpTo_saves t s hs

/-- Helper: over a whole trace, every emitted save carries a non-empty list
and the invariant still holds at the end. -/
theorem runTrace_saves (tr : List (ℚ × AEv)) (s : AutoState)
    (hs : PendInv s) :
    (∀ p ∈ (runTrace tr s).2, p.2 ≠ []) ∧ PendInv (runTrace tr s).1 := by
  induction tr generalizing s with
  | nil => exact ⟨by simp [runTrace], hs⟩
  | cons te rest ih =>
      obtain ⟨t, e⟩ := te
      have h1 := stepEv_saves t e s hs
      have h2 := stepEv_pendInv t e s
      have ih2 := ih (stepEv t e s).1 h2
      constructor
      · intro p hp
        simp only [runTrace, List.mem_append] at hp
        cases hp with
        | inl h => exact h1 p h
        | inr h => exact ih2.1 p h
      · simpa only [runTrace] using ih2.2

/-- C10: no save ever goes out with an empty rectangle list.  From any
state satisfying the pending-timer invariant, every auto-save fired along
any event trace — and any save still firing during a final quiet period —
carries a non-empty list, and the manual save button is disabled exactly
when the list is empty. -/
theorem C10_no_empty_save (tr : List (ℚ × AEv)) (s : AutoState) (tEnd : ℚ)
    (hs : PendInv s) :
    (∀ p ∈ (runTrace tr s).2, p.2 ≠ []) ∧
    (∀ p ∈ quietUntil tEnd (runTrace tr s).1, p.2 ≠ []) ∧
    saveButtonDisabled [] = true ∧
    (∀ l : List Rect, saveButtonDisabled l = false → l ≠ []) := by
  have h := runTrace_saves tr s hs
  refine ⟨h.1, ?_, rfl, ?_⟩
  · exact fireUpTo_saves tEnd _ h.2
  · intro l hl h0
    rw [h0] at hl
    simp [saveButtonDisabled] at hl

/-- Witness for C1 at a concrete 6-by-6 provisional rectangle. -/
theorem C1_draw_commit_threshold_witness :
    (handleMouseUp
      { isDrawing := true, rectangles := [],
        startPoint := some (0, 0),
        currentRect := some
          { id := "rect-1", x := 0, y := 0, width := 6, height := 6,
            color := "#abcdef" } }).currentRect = none :=
  (C1_draw_commit_threshold _ _ rfl).1

/-- Witness for C2 at the gesture from (100,100) to (40,60). -/
theorem C2_normalization_witness :
    (handleMouseUp
      { isDrawing := true, rectangles := [],
        startPoint := some (100, 100),
        currentRect := some
          { id := "rect-2", x := 100, y := 100, width := -60,
            height := -40, color := "#00ff00" } }).rectangles =
      [{ id := "rect-2", x := min 100 (100 + -60),
         y := min 100 (100 + -40), width := |(-60 : ℚ)|,
         height := |(-40 : ℚ)|, color := "#00ff00" }] :=
  (C2_normalization _
    { id := "rect-2", x := 100, y := 100, width := -60, height := -40,
      color := "#00ff00" }
    rfl (by norm_num) (by norm_num)).1

/-- Witness for C3: a requested 3-wide box is clamped back to the previous
10-by-10 box. -/
theorem C3_resize_clamp_witness :
    boundBoxFunc { x := 0, y := 0, width := 10, height := 10 }
        { x := 0, y := 0, width := 3, height := 10 } =
      { x := 0, y := 0, width := 10, height := 10 } :=
  (C3_resize_clamp [] "a" 0 0 1 1 _ _ (by norm_num)).2.2.2.2

/-- Witness for the amended C4: a parse failure reports the error and keeps
the empty sequence. -/
theorem C4_import_validation_witness :
    loadFromFile (.error ())
        { rectangles := [], selectedId := none, error := "" } =
      { rectangles := [], selectedId := none,
        error := "Invalid file format" } :=
  (C4_import_validation
    { rectangles := [], selectedId := none, error := "" }
    (.num 3) [] rfl).1

/-- Witness for C6: disabling auto-save at time 0 cancels a timer pending
for time 2. -/
theorem C6_autosave_debounce_witness :
    (stepEv 0 (.setAuto false)
      { rectangles := [{ id := "rect-9", x := 0, y := 0, width := 6,
                         height := 6, color := "#123456" }],
        autoSave := true,
        pending := some (2, [{ id := "rect-9", x := 0, y := 0, width := 6,
                               height := 6,
                               color := "#123456" }]) }).1.pending = none :=
  (C6_autosave_debounce _ 0 2
    [{ id := "rect-9", x := 0, y := 0, width := 6, height := 6,
       color := "#123456" }]
    [{ id := "rect-9", x := 0, y := 0, width := 6, height := 6,
       color := "#123456" }]
    rfl (by simp) rfl (by norm_num)).1

/-- Witness for C8: clearing the empty store leaves an empty sequence. -/
theorem C8_selection_weak_ref_witness :
    (clearAll { rectangles := [], selectedId := none }).rectangles = [] :=
  (C8_selection_weak_ref { rectangles := [], selectedId := none } "x"
    .clear (by intro j hj; simp at hj) (by intro r hr; cases hr)).2.1

/-- Witness for C10: the manual save button is disabled on the empty
list. -/
theorem C10_no_empty_save_witness :
    saveButtonDisabled [] = true :=
  (C10_no_empty_save []
    { rectangles := [], autoSave := false, pending := none } 0
    (by intro d l h; simp at h)).2.2.1

end Canvas
